import Mathlib

/-!
Shallow embedding of the MiGChat chat-room server core, translated from
src/server_service.rs and src/storage.rs of the 0xAAE/migchat-rs repository.
Strings are modelled as byte lists, u64 arithmetic as Nat with explicit
reduction modulo 2^64, the random id draws of rand::random as an explicit
list of draws, and the fallible storage layer as explicit state passing with
boolean fault oracles where a claim depends on a storage failure.
-/

namespace MigChat

/-- Bytes and ids; u64 values are Nats reduced mod 2^64 where overflow matters. -/
abbrev Byte := Nat

abbrev UserId := Nat

abbrev ChatId := Nat

/-- src/proto.rs: reserved sentinel ids, all zero. -/
def NOT_USER_ID : Nat := 0

def NOT_CHAT_ID : Nat := 0

def NOT_POST_ID : Nat := 0

/-- 2^64, the u64 modulus. -/
def U64 : Nat := 18446744073709551616

/-- The fxhash crate seed for 64-bit hashing (0x51_7c_c1_b7_27_22_0a_95). -/
def SEED64 : Nat := 0x517cc1b727220a95

/-- u64::rotate_left(5): high 59 bits shift up, top 5 bits wrap to the bottom. -/
def rotl5 (x : Nat) : Nat := ((x % U64) * 32) % U64 + (x % U64) / 2 ^ 59

/-- fxhash HashWord for u64: hash = (hash.rotate_left(5) ^ word) * SEED64 (wrapping). -/
def hashWord (hash word : Nat) : Nat := (rotl5 hash ^^^ word % U64) * SEED64 % U64

/-- Little-endian value of a byte list (bytes reduced mod 256). -/
def leWord (bs : List Byte) : Nat := bs.foldr (fun b acc => acc * 256 + b % 256) 0

/-- fxhash write64, final step: if one byte remains, hash it as a u64. -/
def write64last (h : Nat) : List Byte → Nat
  | b0 :: _ => hashWord h (b0 % 256)
  | [] => h

/-- fxhash write64: consume a 2-byte chunk if at least two bytes remain. -/
def write64half (h : Nat) : List Byte → Nat
  | b0 :: b1 :: rest => write64last (hashWord h (leWord [b0, b1])) rest
  | bs => write64last h bs

/-- fxhash write64: consume a 4-byte chunk if at least four bytes remain. -/
def write64tail (h : Nat) : List Byte → Nat
  | b0 :: b1 :: b2 :: b3 :: rest => write64half (hashWord h (leWord [b0, b1, b2, b3])) rest
  | bs => write64half h bs

/-- fxhash write64: consume 8-byte chunks while possible, then the 4/2/1 tail. -/
def write64 (h : Nat) : List Byte → Nat
  | b0 :: b1 :: b2 :: b3 :: b4 :: b5 :: b6 :: b7 :: rest =>
      write64 (hashWord h (leWord [b0, b1, b2, b3, b4, b5, b6, b7])) rest
  | bs => write64tail h bs

/-- u64::to_le_bytes: the eight little-endian bytes of x (x taken mod 2^64). -/
def to_le_bytes (x : Nat) : List Byte :=
  [x % 256, x / 2 ^ 8 % 256, x / 2 ^ 16 % 256, x / 2 ^ 24 % 256,
   x / 2 ^ 32 % 256, x / 2 ^ 40 % 256, x / 2 ^ 48 % 256, x / 2 ^ 56 % 256]

/-- proto UserInfo: the registration request payload. -/
structure UserInfo where
  name : List Byte
  short_name : List Byte
deriving DecidableEq

/-- src/server_service.rs get_user_id: FxHasher64 over name then short_name. -/
def get_user_id (user : UserInfo) : Nat := write64 (write64 0 user.name) user.short_name

/-- src/server_service.rs new_post_id: draw random u64 until one differs from
NOT_POST_ID; the draw stream is explicit, none models a never-ending loop. -/
def new_post_id_from (draws : List Nat) : Option Nat :=
  draws.find? (fun v => v != NOT_POST_ID)

/-- src/server_service.rs new_chat_id: draw random u64 until nonzero. -/
def new_chat_id_from (draws : List Nat) : Option Nat :=
  draws.find? (fun v => v != NOT_CHAT_ID)

/-- src/server_service.rs get_chat_id: hash of the description when non-empty,
else hash of the member ids (each written as 8 little-endian bytes) when
non-empty, else a random nonzero id. -/
def get_chat_id (description : List Byte) (users : List UserId) (draws : List Nat) :
    Option Nat :=
  if description.isEmpty = false then
    some (write64 0 description)
  else if users.isEmpty = false then
    some (users.foldl (fun h u => write64 h (to_le_bytes u)) 0)
  else
    new_chat_id_from draws

/-- proto User record as stored. -/
structure User where
  id : Nat
  name : List Byte
  short_name : List Byte
  created : Nat
deriving DecidableEq

/-- proto Chat record as stored. -/
structure Chat where
  id : Nat
  permanent : Bool
  description : List Byte
  users : List UserId
  created : Nat
deriving DecidableEq

/-- proto Post record as stored. -/
structure Post where
  id : Nat
  chat_id : Nat
  user_id : Nat
  text : List Byte
  attachments : List Byte
  created : Nat
deriving DecidableEq

/-- src/server_service.rs is_chat_visible_for: a chat with empty description is
visible only to its members. -/
def is_chat_visible_for (chat : Chat) (user_id : UserId) : Bool :=
  if chat.description.isEmpty then chat.users.contains user_id else true

/-- UserChanged notification variants. -/
inductive UserChanged where
  | Info : User → UserChanged
  | Online : UserId → UserChanged
  | Offline : UserId → UserChanged
deriving DecidableEq

/-- ChatChanged notification variants. -/
inductive ChatChanged where
  | Updated : Chat → ChatChanged
  | Closed : ChatId → ChatChanged
deriving DecidableEq

/-- proto UpdateUsers stream message. -/
structure UpdateUsers where
  added : List User
  online : List UserId
  offline : List UserId
deriving DecidableEq

/-- proto UpdateChats stream message. -/
structure UpdateChats where
  updated : List Chat
  gone : List ChatId
deriving DecidableEq

/-- src/server_service.rs get_users, lines 350-376: the re-translation of a
UserChanged notification into an UpdateUsers delta for the subscription of
user_id. The Online and Offline arms send user_id, exactly as the source does. -/
def translate_user_changed (user_id : UserId) : UserChanged → UpdateUsers
  | UserChanged.Info user => { added := [user], online := [user.id], offline := [] }
  | UserChanged.Online _ => { added := [], online := [user_id], offline := [] }
  | UserChanged.Offline _ => { added := [], online := [], offline := [user_id] }

/-- Association-list lookup, modelling a key-value bucket read. -/
def assocGet {α : Type} (k : Nat) : List (Nat × α) → Option α
  | [] => none
  | (k2, v) :: rest => if k = k2 then some v else assocGet k rest

/-- Association-list put, modelling bucket.put: replace or append. -/
def assocPut {α : Type} (k : Nat) (v : α) : List (Nat × α) → List (Nat × α)
  | [] => [(k, v)]
  | (k2, v2) :: rest => if k = k2 then (k, v) :: rest else (k2, v2) :: assocPut k v rest

/-- Association-list removal of a key, modelling bucket.delete / delete_bucket. -/
def assocRemove {α : Type} (k : Nat) : List (Nat × α) → List (Nat × α)
  | [] => []
  | (k2, v2) :: rest => if k = k2 then rest else (k2, v2) :: assocRemove k rest

/-- The jammdb database of src/storage.rs: the users and chats buckets map
little-endian u64 keys to records, the posts bucket holds one child bucket per
chat with posts in insertion order. -/
structure StorageState where
  users : List (Nat × User)
  chats : List (Nat × Chat)
  posts : List (Nat × List Post)
deriving DecidableEq

/-- Storage-layer error kinds surfaced by jammdb operations. -/
inductive StoreErr where
  | bucketMissing
  | keyMissing
deriving DecidableEq

/-- src/storage.rs read_user (fault-free path). -/
def read_user (id : UserId) (s : StorageState) : Option User := assocGet id s.users

/-- src/storage.rs write_user (fault-free path). -/
def write_user (id : UserId) (u : User) (s : StorageState) : StorageState :=
  { s with users := assocPut id u s.users }

/-- src/storage.rs read_chat. -/
def read_chat (id : ChatId) (s : StorageState) : Option Chat := assocGet id s.chats

/-- src/storage.rs write_chat. -/
def write_chat (id : ChatId) (chat : Chat) (s : StorageState) : StorageState :=
  { s with chats := assocPut id chat s.chats }

/-- src/storage.rs read_all_chats: every chat record in the chats bucket. -/
def read_all_chats (s : StorageState) : List Chat := s.chats.map (fun p => p.2)

/-- src/storage.rs update_in_db, lines 175-219, as instantiated by update_chat:
the updater receives the decoded chat and reports whether it mutated. When the
key is absent nothing happens; when the updater reports false the (possibly
touched) in-memory value is returned without a write; when it reports true the
new value is written back and returned. -/
def update_chat (id : ChatId) (updater : Chat → Chat × Bool) (s : StorageState) :
    Option Chat × StorageState :=
  match assocGet id s.chats with
  | none => (none, s)
  | some item =>
      let r := updater item
      if r.2 = false then (some r.1, s)
      else (some r.1, { s with chats := assocPut id r.1 s.chats })

/-- src/storage.rs write_post, lines 310-335: get_or_create the per-chat child
bucket (no existence check against the chats bucket) and append the post under
the next sequence number. -/
def write_post (post : Post) (s : StorageState) : StorageState :=
  let bucket := (assocGet post.chat_id s.posts).getD []
  { s with posts := assocPut post.chat_id (bucket ++ [post]) s.posts }

/-- src/storage.rs remove_chat_posts, lines 386-397: delete_bucket errors with
BucketMissing when the chat never had a posts child bucket; the commit still
runs but there is nothing to commit. -/
def remove_chat_posts (id : ChatId) (s : StorageState) :
    Except StoreErr Unit × StorageState :=
  match assocGet id s.posts with
  | some _ => (Except.ok (), { s with posts := assocRemove id s.posts })
  | none => (Except.error StoreErr.bucketMissing, s)

/-- src/storage.rs remove_from_db for the chats bucket, lines 288-305: the
jammdb bucket.delete runs inside a writable transaction and its result
reports whether the key was present (Err when absent), but unlike every other
mutator in the file the function never calls tx.commit(), so the transaction
is rolled back when it is dropped and the deletion does not persist: the
state is unchanged in both branches. -/
def remove_chat_record (id : ChatId) (s : StorageState) :
    Except StoreErr Unit × StorageState :=
  match assocGet id s.chats with
  | some _ => (Except.ok (), s)
  | none => (Except.error StoreErr.keyMissing, s)

/-- src/storage.rs remove_chat, lines 112-115:
remove_chat_posts(id).and(remove_from_db(chats, id)). Rust evaluates both
calls before Result::and combines them, so the chat record delete attempt
runs even when the posts delete failed (though its uncommitted transaction
never persists); the first error wins in the returned result. -/
def remove_chat (id : ChatId) (s : StorageState) :
    Except StoreErr Unit × StorageState :=
  let r1 := remove_chat_posts id s
  let r2 := remove_chat_record id r1.2
  (match r1.1 with
   | Except.error e => Except.error e
   | Except.ok _ => r2.1, r2.2)

/-- RPC status codes used by the handlers. -/
inductive RpcError where
  | internal
  | notFound
  | invalidArgument
deriving DecidableEq

deriving instance DecidableEq for Except

/-- proto RegistrationInfo response of register. -/
structure RegistrationInfo where
  user_id : Nat
  created : Nat
deriving DecidableEq

/-- The in-process server state the handlers share: the storage and the
presence set of online user ids (online_users in ChatRoomImpl). -/
structure ServerState where
  storage : StorageState
  online : List UserId
deriving DecidableEq

/-- HashSet::insert on the presence set. -/
def setInsert (x : Nat) (l : List Nat) : List Nat := if x ∈ l then l else l ++ [x]

/-- HashSet::remove on the presence set. -/
def setRemove (x : Nat) (l : List Nat) : List Nat := l.filter (fun y => !(y == x))

/-- src/server_service.rs register, lines 72-121: insert the id into the
presence set, then read the user; on a read fault return Internal (the
presence insert is not rolled back); an existing user is returned with its
stored created and an Online notification; a fresh user is notified before
the write, and a write fault returns Internal without storing. -/
def register (info : UserInfo) (now : Nat) (readFails writeFails : Bool)
    (s : ServerState) :
    Except RpcError RegistrationInfo × ServerState × List UserChanged :=
  let id := get_user_id info
  let base : ServerState := { s with online := setInsert id s.online }
  if readFails then (Except.error RpcError.internal, base, [])
  else
    match read_user id base.storage with
    | some u =>
        (Except.ok { user_id := id, created := u.created }, base,
         [UserChanged.Online u.id])
    | none =>
        let new_user : User :=
          { id := id, name := info.name, short_name := info.short_name, created := now }
        if writeFails then
          (Except.error RpcError.internal, base, [UserChanged.Info new_user])
        else
          (Except.ok { user_id := id, created := new_user.created },
           { base with storage := write_user new_user.id new_user base.storage },
           [UserChanged.Info new_user])

/-- src/server_service.rs logout, lines 170-217: drop the four subscription
channels (not part of this state model), remove the user from the presence
set, notify Offline, and answer ok. -/
def logout (user_id : UserId) (s : ServerState) :
    Except RpcError Unit × ServerState × List UserChanged :=
  (Except.ok (), { s with online := setRemove user_id s.online },
   [UserChanged.Offline user_id])

/-- Everything observable about one create_post call: the RPC response (the ok
flag of proto Result on success), the server state after the call, and the
posts handed to notify_new_post for fan-out. -/
structure CreatePostOutcome where
  response : Except RpcError Bool
  state : ServerState
  notified : List Post
deriving DecidableEq

/-- src/server_service.rs create_post, lines 471-495: reject a nonzero id with
InvalidArgument; draw a fresh nonzero id and stamp created = now; a write_post
failure (writeFails) is only logged; the post is then fanned out through
notify_new_post and the handler answers ok. none models the unterminated
random-id loop when no draw is nonzero. -/
def create_post (post : Post) (draws : List Nat) (now : Nat) (writeFails : Bool)
    (s : ServerState) : Option CreatePostOutcome :=
  if post.id ≠ NOT_POST_ID then
    some { response := Except.error RpcError.invalidArgument, state := s, notified := [] }
  else
    match new_post_id_from draws with
    | none => none
    | some pid =>
        let stamped : Post := { post with id := pid, created := now }
        let s2 := if writeFails then s
                  else { s with storage := write_post stamped s.storage }
        some { response := Except.ok true, state := s2, notified := [stamped] }

/-- proto ChatInfo request of create_chat. -/
structure ChatInfo where
  user_id : UserId
  permanent : Bool
  auto_enter : Bool
  description : List Byte
  desired_users : List UserId
deriving DecidableEq

/-- BTreeSet::insert on a strictly ascending list: keep it sorted, drop the
element if already present. -/
def insSorted (x : Nat) : List Nat → List Nat
  | [] => [x]
  | y :: ys => if x < y then x :: y :: ys else if x = y then y :: ys else y :: insSorted x ys

/-- Inserting every element of l into an initially empty BTreeSet and
iterating it: the strictly ascending deduplicated enumeration of l. -/
def sortedInsertAll (l : List Nat) : List Nat :=
  l.foldl (fun acc x => insSorted x acc) []

/-- src/server_service.rs create_chat, lines 504-514: with auto_enter the
member list is the BTreeSet of the caller and the desired users, iterated in
sorted ascending order without duplicates; otherwise it is empty. -/
def create_chat_users (info : ChatInfo) : List UserId :=
  if info.auto_enter then sortedInsertAll (info.user_id :: info.desired_users)
  else []

/-- The chat id computed by create_chat from its input (line 515). -/
def create_chat_id (info : ChatInfo) (draws : List Nat) : Option Nat :=
  get_chat_id info.description (create_chat_users info) draws

/-- src/server_service.rs create_chat, lines 498-564 (fault-free storage):
update_chat appends the caller when auto_enter and absent; when the chat did
not exist a fresh chat with created = now is written. Either way the resulting
chat is fanned out as ChatChanged::Updated and returned. -/
def create_chat (info : ChatInfo) (draws : List Nat) (now : Nat) (s : ServerState) :
    Option (Except RpcError Chat × ServerState × List ChatChanged) :=
  match create_chat_id info draws with
  | none => none
  | some id =>
      match update_chat id
        (fun c =>
          if info.auto_enter && !(c.users.contains info.user_id) then
            ({ c with users := c.users ++ [info.user_id] }, true)
          else (c, false)) s.storage with
      | (some chat, st2) =>
          some (Except.ok chat, { s with storage := st2 }, [ChatChanged.Updated chat])
      | (none, _) =>
          some (Except.ok ({ id := id, permanent := info.permanent,
                             description := info.description,
                             users := create_chat_users info, created := now } : Chat),
                { s with
                  storage := write_chat id
                    ({ id := id, permanent := info.permanent,
                       description := info.description,
                       users := create_chat_users info, created := now }) s.storage },
                [ChatChanged.Updated
                    ({ id := id, permanent := info.permanent,
                       description := info.description,
                       users := create_chat_users info, created := now })])

/-- src/server_service.rs get_chats, lines 409-434: the initial snapshot keeps
only the chats visible to the subscriber and is sent only when non-empty. -/
def get_chats_initial (user_id : UserId) (chats : List Chat) : List UpdateChats :=
  let existing := chats.filter (fun c => is_chat_visible_for c user_id)
  if existing.isEmpty then [] else [{ updated := existing, gone := [] }]

/-- src/server_service.rs get_chats, lines 437-456: a live Updated event is
skipped when the chat is invisible to the subscriber; Closed becomes a gone
entry. -/
def translate_chat_changed (user_id : UserId) : ChatChanged → Option UpdateChats
  | ChatChanged.Updated chat =>
      if is_chat_visible_for chat user_id then
        some { updated := [chat], gone := [] }
      else none
  | ChatChanged.Closed id => some { updated := [], gone := [id] }

/-- All UpdateChats messages one get_chats subscription delivers: the initial
snapshot followed by the translation of every live ChatChanged event. -/
def get_chats_stream (user_id : UserId) (chats : List Chat)
    (events : List ChatChanged) : List UpdateChats :=
  get_chats_initial user_id chats ++ events.filterMap (translate_chat_changed user_id)

/-- One RPC arrival in a server run, with its nondeterministic inputs (clock
reading, random draws, storage fault oracles) made explicit. -/
inductive Event where
  | register (info : UserInfo) (now : Nat) (readFails writeFails : Bool)
  | logout (user_id : UserId)
  | post (p : Post) (draws : List Nat) (now : Nat) (writeFails : Bool)
  | chat (info : ChatInfo) (draws : List Nat) (now : Nat)
deriving DecidableEq

/-- The server state reached after handling one event. -/
def stepState (s : ServerState) (e : Event) : ServerState :=
  match e with
  | Event.register info now rf wf => (register info now rf wf s).2.1
  | Event.logout uid => (logout uid s).2.1
  | Event.post p draws now wf =>
      match create_post p draws now wf s with
      | some o => o.state
      | none => s
  | Event.chat info draws now =>
      match create_chat info draws now s with
      | some o => o.2.1
      | none => s

/-- The state of a freshly started server: empty database, nobody online. -/
def initialState : ServerState :=
  { storage := { users := [], chats := [], posts := [] }, online := [] }

/-- A reachable server state: the fold of the handlers over a trace of events. -/
def run (tr : List Event) : ServerState := tr.foldl stepState initialState

/-- Whether a register call returns a RegistrationInfo rather than an error
status, evaluated against the state it executes in. -/
def registerSucceeds (s : ServerState) (info : UserInfo) (now : Nat)
    (rf wf : Bool) : Bool :=
  match (register info now rf wf s).1 with
  | Except.ok _ => true
  | Except.error _ => false

/-- The claimed presence characterization: walking the trace, a user is marked
after a register for it that completed successfully, and unmarked by a logout
for it. -/
def succRegNoLogout (u : UserId) : ServerState → List Event → Bool → Bool
  | _, [], acc => acc
  | s, e :: rest, acc =>
      succRegNoLogout u (stepState s e) rest
        (match e with
         | Event.register info now rf wf =>
             if get_user_id info == u && registerSucceeds s info now rf wf then true
             else acc
         | Event.logout uid => if uid == u then false else acc
         | _ => acc)

/-- The presence characterization the code actually maintains: a user is
marked by any register carrying it, successful or not, and unmarked by a
logout for it. -/
def regIssuedNoLogout (u : UserId) : List Event → Bool → Bool
  | [], acc => acc
  | e :: rest, acc =>
      regIssuedNoLogout u rest
        (match e with
         | Event.register info _ _ _ => if get_user_id info == u then true else acc
         | Event.logout uid => if uid == u then false else acc
         | _ => acc)

section Lemmas

theorem assocGet_put_self {α : Type} (k : Nat) (v : α) (l : List (Nat × α)) :
    assocGet k (assocPut k v l) = some v := by
  induction l with
  | nil => simp [assocGet, assocPut]
  | cons hd tl ih =>
      obtain ⟨k2, v2⟩ := hd
      by_cases h : k = k2 <;> simp [assocGet, assocPut, h, ih]

end Lemmas

/-- C1: the get_users re-translation of a live UserChanged event, evaluated at
the failing input: a subscription for user 7 receiving Online(5) is sent
UpdateUsers with online = [7], the subscriber's own id, instead of online =
[5], the id carried in the event; Offline(5) likewise yields offline = [7].
The spec (and the debug messages next to the code) intend the event's id. -/
theorem c1_get_users_translation_eval :
    translate_user_changed 7 (UserChanged.Online 5) =
      { added := [], online := [7], offline := [] } ∧
    translate_user_changed 7 (UserChanged.Offline 5) =
      { added := [], online := [], offline := [7] } ∧
    translate_user_changed 7 (UserChanged.Online 5) ≠
      { added := [], online := [5], offline := [] } := by
  decide

/-- C6 counterexample: the identity hashes can produce the reserved id 0. An
empty name and short_name leave the FxHasher64 state at its initial value 0,
so get_user_id returns 0; and a member list [0] with empty description hashes
to 0 as well. This refutes the claim that these functions never return 0 for
any input, including empty strings. -/
theorem c6_zero_id_counterexample :
    get_user_id { name := [], short_name := [] } = 0 ∧
    get_chat_id [] [0] [] = some 0 := by
  decide

/-- C6 amended: only the random draw loops are guaranteed nonzero: whenever
new_post_id (or new_chat_id) terminates with a value, that value differs from
the reserved 0; the hash-based get_user_id and get_chat_id have no such
guarantee. -/
theorem c6_random_ids_nonzero :
    ∀ (draws : List Nat) (v : Nat),
      (new_post_id_from draws = some v → v ≠ 0) ∧
      (new_chat_id_from draws = some v → v ≠ 0) := by
  intro draws v
  constructor <;> intro h
  · have hv := List.find?_some h
    simpa [NOT_POST_ID] using hv
  · have hv := List.find?_some h
    simpa [NOT_CHAT_ID] using hv

/-- Witness for c6_random_ids_nonzero at the concrete draw list [0, 3]. -/
theorem c6_random_ids_nonzero_witness :
    new_post_id_from [0, 3] = some 3 ∧ (3 : Nat) ≠ 0 :=
  ⟨rfl, (c6_random_ids_nonzero [0, 3] 3).1 rfl⟩

/-- C2 counterexample: from the empty database, create_post with chat_id = 5
persists the post (under the on-demand posts bucket for chat 5) although no
chat with id 5 exists in storage at write time, refuting the claim that every
persisted post references an existing chat. -/
theorem c2_counterexample :
    create_post { id := 0, chat_id := 5, user_id := 1, text := [], attachments := [],
                  created := 0 } [7] 0 false initialState =
      some { response := Except.ok true,
             state := { storage := { users := [], chats := [],
                                     posts := [(5, [{ id := 7, chat_id := 5, user_id := 1,
                                                      text := [], attachments := [],
                                                      created := 0 }])] },
                        online := [] },
             notified := [{ id := 7, chat_id := 5, user_id := 1, text := [],
                            attachments := [], created := 0 }] } ∧
    read_chat 5 { users := [], chats := [],
                  posts := [(5, [{ id := 7, chat_id := 5, user_id := 1, text := [],
                                   attachments := [], created := 0 }])] } = none := by
  decide

/-- C2 amended: every post create_post persists carries the freshly drawn id,
which is never 0; but chat_id is not validated against the chats bucket, since
write_post creates the per-chat bucket on demand, so the stored post may
reference a chat that does not exist. -/
theorem c2_persisted_post_id_nonzero :
    ∀ (post : Post) (draws : List Nat) (now : Nat) (s : ServerState) (pid : Nat),
      post.id = 0 → new_post_id_from draws = some pid →
      create_post post draws now false s =
        some { response := Except.ok true,
               state :=
                 { s with
                   storage := write_post ({ post with id := pid, created := now }) s.storage },
               notified := [{ post with id := pid, created := now }] } ∧
      pid ≠ 0 := by
  intro post draws now s pid hid hdraw
  constructor
  · simp [create_post, NOT_POST_ID, hid, hdraw]
  · have hv := List.find?_some hdraw
    simpa [NOT_POST_ID] using hv

/-- Witness for c2_persisted_post_id_nonzero at a concrete post and state. -/
theorem c2_persisted_post_id_nonzero_witness :
    create_post { id := 0, chat_id := 5, user_id := 1, text := [], attachments := [],
                  created := 0 } [7] 0 false initialState =
      some { response := Except.ok true,
             state := { storage := { users := [], chats := [],
                                     posts := [(5, [{ id := 7, chat_id := 5, user_id := 1,
                                                      text := [], attachments := [],
                                                      created := 0 }])] },
                        online := [] },
             notified := [{ id := 7, chat_id := 5, user_id := 1, text := [],
                            attachments := [], created := 0 }] } ∧
    (7 : Nat) ≠ 0 :=
  c2_persisted_post_id_nonzero
    { id := 0, chat_id := 5, user_id := 1, text := [], attachments := [], created := 0 }
    [7] 0 initialState 7 rfl rfl

/-- C3 counterexample: when write_post fails (writeFails = true), create_post
still hands the post to notify_new_post and answers ok, instead of returning
Internal and aborting before the fan-out as claimed. -/
theorem c3_counterexample :
    create_post { id := 0, chat_id := 5, user_id := 1, text := [], attachments := [],
                  created := 0 } [7] 0 true initialState =
      some { response := Except.ok true, state := initialState,
             notified := [{ id := 7, chat_id := 5, user_id := 1, text := [],
                            attachments := [], created := 0 }] } := by
  decide

/-- C3 amended: a write_post failure in create_post is only logged: the
handler leaves storage unchanged but still emits exactly one post
notification for fan-out and returns ok rather than Internal. -/
theorem c3_write_failure_behavior :
    ∀ (post : Post) (draws : List Nat) (now : Nat) (s : ServerState) (pid : Nat),
      post.id = 0 → new_post_id_from draws = some pid →
      create_post post draws now true s =
        some { response := Except.ok true, state := s,
               notified := [{ post with id := pid, created := now }] } := by
  intro post draws now s pid hid hdraw
  simp [create_post, NOT_POST_ID, hid, hdraw]

/-- Witness for c3_write_failure_behavior at a concrete post and state. -/
theorem c3_write_failure_behavior_witness :
    create_post { id := 0, chat_id := 5, user_id := 1, text := [], attachments := [],
                  created := 0 } [7] 0 true initialState =
      some { response := Except.ok true, state := initialState,
             notified := [{ id := 7, chat_id := 5, user_id := 1, text := [],
                            attachments := [], created := 0 }] } :=
  c3_write_failure_behavior
    { id := 0, chat_id := 5, user_id := 1, text := [], attachments := [], created := 0 }
    [7] 0 initialState 7 rfl rfl

/-- C10: the chats bucket survives every remove_chat call, because the
embedded remove_from_db never commits the transaction holding its jammdb
delete, so the deletion is rolled back on drop; and at the claim's failing
input (chat 1 exists, no posts sub-bucket was ever created for it) remove_chat
returns the BucketMissing error of the posts deletion with the storage
entirely unchanged: the chat record has not been removed, contrary to the
claim, and contrary to the spec's remove_chat semantics (a removed chat must
read back as absent), which the missing tx.commit() makes unreachable. -/
theorem c10_remove_chat_record_survives :
    (∀ (id : ChatId) (s : StorageState), ((remove_chat id s).2).chats = s.chats) ∧
    remove_chat 1 { users := [], chats := [(1, { id := 1, permanent := false,
                                                 description := [], users := [],
                                                 created := 0 })], posts := [] } =
      (Except.error StoreErr.bucketMissing,
       { users := [], chats := [(1, { id := 1, permanent := false, description := [],
                                      users := [], created := 0 })], posts := [] }) ∧
    read_chat 1 { users := [], chats := [(1, { id := 1, permanent := false,
                                               description := [], users := [],
                                               created := 0 })], posts := [] } =
      some { id := 1, permanent := false, description := [], users := [], created := 0 } := by
  refine ⟨?_, by decide, by decide⟩
  intro id s
  rw [remove_chat]
  cases h1 : assocGet id s.posts with
  | some bucket =>
      cases h2 : assocGet id s.chats with
      | some c => simp [remove_chat_posts, remove_chat_record, h1, h2]
      | none => simp [remove_chat_posts, remove_chat_record, h1, h2]
  | none =>
      cases h2 : assocGet id s.chats with
      | some c => simp [remove_chat_posts, remove_chat_record, h1, h2]
      | none => simp [remove_chat_posts, remove_chat_record, h1, h2]

/-- C8: the three paths of update_chat, for any updater that honours the
update_in_db contract (it reports false only when it left the chat as it
found it): an absent chat yields none and no write; a false report yields the
stored chat unchanged and no write; a true report writes the mutated chat
under the same key and returns it. -/
theorem c8_update_chat_paths :
    ∀ (id : ChatId) (updater : Chat → Chat × Bool) (s : StorageState),
      (∀ c, (updater c).2 = false → (updater c).1 = c) →
      (assocGet id s.chats = none → update_chat id updater s = (none, s)) ∧
      (∀ c, assocGet id s.chats = some c → (updater c).2 = false →
        update_chat id updater s = (some c, s)) ∧
      (∀ c, assocGet id s.chats = some c → (updater c).2 = true →
        update_chat id updater s =
          (some (updater c).1, { s with chats := assocPut id (updater c).1 s.chats })) := by
  intro id updater s honest
  refine ⟨?_, ?_, ?_⟩
  · intro hnone
    simp [update_chat, hnone]
  · intro c hget hfalse
    simp [update_chat, hget, hfalse, honest c hfalse]
  · intro c hget htrue
    simp [update_chat, hget, htrue]

/-- Witness for c8_update_chat_paths: the no-change path on a one-chat store
with an updater that reports no mutation. -/
theorem c8_update_chat_paths_witness :
    update_chat 1 (fun c => (c, false))
      { users := [], chats := [(1, { id := 1, permanent := false, description := [],
                                     users := [2], created := 0 })], posts := [] } =
      (some { id := 1, permanent := false, description := [], users := [2], created := 0 },
       { users := [], chats := [(1, { id := 1, permanent := false, description := [],
                                      users := [2], created := 0 })], posts := [] }) :=
  (c8_update_chat_paths 1 (fun c => (c, false))
      { users := [], chats := [(1, { id := 1, permanent := false, description := [],
                                     users := [2], created := 0 })], posts := [] }
      (fun _ _ => rfl)).2.1
    { id := 1, permanent := false, description := [], users := [2], created := 0 } rfl rfl

/-- C5: registering the same UserInfo twice (fault-free) returns the same
user id and the same created stamp both times: the first call either finds
the stored record or creates one with created = now1, and the second call
returns that stored record's created and leaves the users bucket untouched. -/
theorem c5_register_idempotent :
    ∀ (info : UserInfo) (now1 now2 : Nat) (s : ServerState),
      ∃ created,
        (register info now1 false false s).1 =
          Except.ok { user_id := get_user_id info, created := created } ∧
        (register info now2 false false
            (register info now1 false false s).2.1).1 =
          Except.ok { user_id := get_user_id info, created := created } ∧
        ((register info now2 false false
            (register info now1 false false s).2.1).2.1).storage.users =
          ((register info now1 false false s).2.1).storage.users := by
  intro info now1 now2 s
  cases h : assocGet (get_user_id info) s.storage.users with
  | none =>
      refine ⟨now1, ?_, ?_, ?_⟩ <;>
        simp [register, read_user, write_user, h, assocGet_put_self]
  | some u =>
      refine ⟨u.created, ?_, ?_, ?_⟩ <;>
        simp [register, read_user, h]

section SortedInsert

theorem mem_insSorted (a x : Nat) (l : List Nat) :
    a ∈ insSorted x l ↔ a = x ∨ a ∈ l := by
  induction l with
  | nil => simp [insSorted]
  | cons y ys ih =>
      by_cases h1 : x < y
      · simp [insSorted, h1, List.mem_cons]
      · by_cases h2 : x = y
        · subst h2
          simp only [insSorted]
          rw [if_neg h1]
          simp only [eq_self_iff_true, if_true, List.mem_cons]
          tauto
        · simp only [insSorted, if_neg h1, if_neg h2, List.mem_cons, ih]
          tauto

theorem sorted_insSorted (x : Nat) (l : List Nat) (h : l.Sorted (· < ·)) :
    (insSorted x l).Sorted (· < ·) := by
  induction l with
  | nil => simp [insSorted]
  | cons y ys ih =>
      rw [List.sorted_cons] at h
      obtain ⟨hy, hys⟩ := h
      by_cases h1 : x < y
      · rw [insSorted, if_pos h1, List.sorted_cons]
        refine ⟨?_, List.sorted_cons.mpr ⟨hy, hys⟩⟩
        intro b hb
        rcases List.mem_cons.mp hb with rfl | hb2
        · exact h1
        · exact lt_trans h1 (hy b hb2)
      · by_cases h2 : x = y
        · rw [insSorted, if_neg h1, if_pos h2]
          exact List.sorted_cons.mpr ⟨hy, hys⟩
        · rw [insSorted, if_neg h1, if_neg h2, List.sorted_cons]
          refine ⟨?_, ih hys⟩
          intro b hb
          rcases (mem_insSorted b x ys).mp hb with rfl | hb2
          · omega
          · exact hy b hb2

theorem mem_foldl_insSorted (a : Nat) (l acc : List Nat) :
    a ∈ l.foldl (fun acc2 x => insSorted x acc2) acc ↔ a ∈ acc ∨ a ∈ l := by
  induction l generalizing acc with
  | nil => simp
  | cons x xs ih =>
      rw [List.foldl_cons, ih, mem_insSorted]
      simp only [List.mem_cons]
      tauto

theorem sorted_foldl_insSorted (l acc : List Nat) (h : acc.Sorted (· < ·)) :
    (l.foldl (fun acc2 x => insSorted x acc2) acc).Sorted (· < ·) := by
  induction l generalizing acc with
  | nil => simpa
  | cons x xs ih => exact ih (insSorted x acc) (sorted_insSorted x acc h)

theorem mem_sortedInsertAll (a : Nat) (l : List Nat) :
    a ∈ sortedInsertAll l ↔ a ∈ l := by
  unfold sortedInsertAll
  rw [mem_foldl_insSorted]
  simp

theorem sorted_sortedInsertAll (l : List Nat) : (sortedInsertAll l).Sorted (· < ·) :=
  sorted_foldl_insSorted l [] (by simp)

theorem sortedInsertAll_ext (l1 l2 : List Nat) (h : ∀ x, x ∈ l1 ↔ x ∈ l2) :
    sortedInsertAll l1 = sortedInsertAll l2 := by
  refine List.eq_of_perm_of_sorted ?_ (sorted_sortedInsertAll l1) (sorted_sortedInsertAll l2)
  refine (List.perm_ext_iff_of_nodup (sorted_sortedInsertAll l1).nodup
      (sorted_sortedInsertAll l2).nodup).mpr ?_
  intro a
  rw [mem_sortedInsertAll, mem_sortedInsertAll]
  exact h a

end SortedInsert

/-- C4: for two create_chat inputs with empty description and auto_enter set,
the chat id is determined by the member set alone: if the caller plus the
desired users of both inputs are equal as sets, both calls compute the same
chat id (and deterministically so, independent of any random draws). -/
theorem c4_chat_id_set_determined :
    ∀ (i1 i2 : ChatInfo) (d1 d2 : List Nat),
      i1.auto_enter = true → i2.auto_enter = true →
      i1.description = [] → i2.description = [] →
      (∀ x, x ∈ i1.user_id :: i1.desired_users ↔ x ∈ i2.user_id :: i2.desired_users) →
      create_chat_id i1 d1 = create_chat_id i2 d2 ∧
      (create_chat_id i1 d1).isSome = true := by
  intro i1 i2 d1 d2 ha1 ha2 hd1 hd2 hset
  have husers : create_chat_users i1 = create_chat_users i2 := by
    rw [create_chat_users, create_chat_users, ha1, ha2, if_pos rfl, if_pos rfl]
    exact sortedInsertAll_ext _ _ hset
  have hne : create_chat_users i1 ≠ [] := by
    have hmem : i1.user_id ∈ create_chat_users i1 := by
      rw [create_chat_users, ha1, if_pos rfl, mem_sortedInsertAll]
      exact List.mem_cons_self _ _
    exact List.ne_nil_of_mem hmem
  have hse : (create_chat_users i1).isEmpty = false := by
    cases hu : create_chat_users i1 with
    | nil => exact absurd hu hne
    | cons a as => rfl
  have h1 : create_chat_id i1 d1 =
      some ((create_chat_users i1).foldl (fun h u => write64 h (to_le_bytes u)) 0) := by
    rw [create_chat_id, hd1]
    simp [get_chat_id, hse]
  have h2 : create_chat_id i2 d2 =
      some ((create_chat_users i2).foldl (fun h u => write64 h (to_le_bytes u)) 0) := by
    rw [create_chat_id, hd2]
    simp [get_chat_id, husers ▸ hse]
  refine ⟨?_, ?_⟩
  · rw [h1, h2, husers]
  · rw [h1]
    rfl

/-- Witness for c4_chat_id_set_determined: the dialog between users 1 and 2,
proposed once by user 1 with desired [2] and once by user 2 with desired
[1, 1], converges on one chat id. -/
theorem c4_chat_id_set_determined_witness :
    create_chat_id { user_id := 1, permanent := false, auto_enter := true,
                     description := [], desired_users := [2] } [] =
      create_chat_id { user_id := 2, permanent := false, auto_enter := true,
                       description := [], desired_users := [1, 1] } [5] :=
  (c4_chat_id_set_determined
    { user_id := 1, permanent := false, auto_enter := true, description := [],
      desired_users := [2] }
    { user_id := 2, permanent := false, auto_enter := true, description := [],
      desired_users := [1, 1] } [] [5] rfl rfl rfl rfl
    (by
      intro x
      simp only [List.mem_cons, List.not_mem_nil, or_false]
      tauto)).1

/-- C7: every UpdateChats message a get_chats subscription for user U
delivers, whether from the initial snapshot or from a live event, lists only
chats visible to U: no delivered chat has an empty description while U is
not among its members. -/
theorem c7_get_chats_visibility :
    ∀ (user_id : UserId) (chats : List Chat) (events : List ChatChanged),
      (get_chats_stream user_id chats events).all
        (fun msg => msg.updated.all (fun c => is_chat_visible_for c user_id)) = true := by
  intro U chats events
  rw [get_chats_stream, List.all_append, Bool.and_eq_true]
  constructor
  · rw [List.all_eq_true]
    intro msg hmsg
    obtain ⟨mu, mg⟩ := msg
    by_cases he : (chats.filter (fun c => is_chat_visible_for c U)).isEmpty
    · simp [get_chats_initial, he] at hmsg
    · simp only [get_chats_initial, if_neg he, List.mem_singleton, UpdateChats.mk.injEq]
        at hmsg
      obtain ⟨h1, _⟩ := hmsg
      subst h1
      rw [List.all_eq_true]
      intro c hc
      exact (List.mem_filter.mp hc).2
  · rw [List.all_eq_true]
    intro msg hmsg
    obtain ⟨mu, mg⟩ := msg
    obtain ⟨ev, _hev, htr⟩ := List.mem_filterMap.mp hmsg
    cases ev with
    | Updated chat =>
        cases hv : is_chat_visible_for chat U with
        | false => simp [translate_chat_changed, hv] at htr
        | true =>
            simp only [translate_chat_changed, hv, if_true, Option.some.injEq,
              UpdateChats.mk.injEq] at htr
            obtain ⟨h1, _⟩ := htr
            subst h1
            simp [hv]
    | Closed cid =>
        simp only [translate_chat_changed, Option.some.injEq, UpdateChats.mk.injEq] at htr
        obtain ⟨h1, _⟩ := htr
        subst h1
        rfl

section Presence

theorem mem_setInsert (a b : Nat) (l : List Nat) :
    a ∈ setInsert b l ↔ a = b ∨ a ∈ l := by
  rw [setInsert]
  by_cases h : b ∈ l
  · rw [if_pos h]
    constructor
    · exact Or.inr
    · rintro (rfl | h2)
      · exact h
      · exact h2
  · rw [if_neg h]
    simp only [List.mem_append, List.mem_singleton]
    tauto

theorem mem_setRemove (a b : Nat) (l : List Nat) :
    a ∈ setRemove b l ↔ a ∈ l ∧ a ≠ b := by
  rw [setRemove]
  simp [List.mem_filter]

theorem register_online (info : UserInfo) (now : Nat) (rf wf : Bool) (s : ServerState) :
    ((register info now rf wf s).2.1).online = setInsert (get_user_id info) s.online := by
  cases rf <;> cases wf <;>
    simp only [register, read_user] <;>
    cases h : assocGet (get_user_id info) s.storage.users <;>
      simp [h, write_user]

theorem logout_online (uid : UserId) (s : ServerState) :
    ((logout uid s).2.1).online = setRemove uid s.online := rfl

theorem create_post_state_online (p : Post) (d : List Nat) (n : Nat) (wf : Bool)
    (s : ServerState) :
    ∀ o, create_post p d n wf s = some o → o.state.online = s.online := by
  intro o h
  rw [create_post] at h
  by_cases hid : p.id ≠ NOT_POST_ID
  · rw [if_pos hid] at h
    cases h
    rfl
  · rw [if_neg hid] at h
    cases hfind : new_post_id_from d with
    | none => rw [hfind] at h; cases h
    | some pid =>
        rw [hfind] at h
        cases h
        cases wf <;> rfl

theorem stepState_post_online (p : Post) (d : List Nat) (n : Nat) (wf : Bool)
    (s : ServerState) :
    (stepState s (Event.post p d n wf)).online = s.online := by
  simp only [stepState]
  cases hc : create_post p d n wf s with
  | none => rfl
  | some o => exact create_post_state_online p d n wf s o hc

theorem create_chat_state_online (i : ChatInfo) (d : List Nat) (n : Nat)
    (s : ServerState) :
    ∀ o, create_chat i d n s = some o → o.2.1.online = s.online := by
  intro o h
  rw [create_chat] at h
  split at h
  · exact absurd h (by simp)
  · split at h
    · cases h
      rfl
    · cases h
      rfl

theorem stepState_chat_online (i : ChatInfo) (d : List Nat) (n : Nat) (s : ServerState) :
    (stepState s (Event.chat i d n)).online = s.online := by
  simp only [stepState]
  cases hc : create_chat i d n s with
  | none => rfl
  | some o => exact create_chat_state_online i d n s o hc

theorem online_characterization_aux :
    ∀ (tr : List Event) (s : ServerState) (acc : Bool) (u : UserId),
      (u ∈ s.online ↔ acc = true) →
      (u ∈ (tr.foldl stepState s).online ↔ regIssuedNoLogout u tr acc = true) := by
  intro tr
  induction tr with
  | nil =>
      intro s acc u h
      simpa [regIssuedNoLogout] using h
  | cons e rest ih =>
      intro s acc u h
      cases e with
      | register info now rf wf =>
          simp only [List.foldl_cons, regIssuedNoLogout]
          apply ih
          rw [show stepState s (Event.register info now rf wf) =
                (register info now rf wf s).2.1 from rfl,
              register_online, mem_setInsert]
          by_cases hu : get_user_id info = u
          · have hb : (get_user_id info == u) = true := by simp [hu]
            simp [hb, hu]
          · have hb : (get_user_id info == u) = false := by simp [hu]
            have hu2 : ¬(u = get_user_id info) := fun e2 => hu e2.symm
            simp only [hb, Bool.false_eq_true, if_false, hu2, false_or]
            exact h
      | logout uid =>
          simp only [List.foldl_cons, regIssuedNoLogout]
          apply ih
          rw [show stepState s (Event.logout uid) = (logout uid s).2.1 from rfl,
              logout_online, mem_setRemove]
          by_cases hu : uid = u
          · have hb : (uid == u) = true := by simp [hu]
            subst hu
            simp [hb]
          · have hb : (uid == u) = false := by simp [hu]
            have hu2 : u ≠ uid := fun e2 => hu e2.symm
            simp only [hb, Bool.false_eq_true, if_false]
            rw [and_iff_left hu2]
            exact h
      | post p d n wf =>
          simp only [List.foldl_cons, regIssuedNoLogout]
          apply ih
          rw [stepState_post_online]
          exact h
      | chat i d n =>
          simp only [List.foldl_cons, regIssuedNoLogout]
          apply ih
          rw [stepState_chat_online]
          exact h

end Presence

/-- C9 counterexample: one register whose storage read fails returns the
Internal error status, so no register in the trace completed successfully and
succRegNoLogout is false, yet the user id is in the presence set because
register inserts it before touching storage. -/
theorem c9_counterexample :
    get_user_id { name := [1], short_name := [] } ∈
      (run [Event.register { name := [1], short_name := [] } 0 true false]).online ∧
    succRegNoLogout (get_user_id { name := [1], short_name := [] }) initialState
      [Event.register { name := [1], short_name := [] } 0 true false] false = false ∧
    (register { name := [1], short_name := [] } 0 true false initialState).1 =
      Except.error RpcError.internal := by
  refine ⟨?_, ?_, ?_⟩ <;> decide

/-- C9 amended: at every reachable state, the presence set contains u iff
some register call carrying u has been issued, successful or not, with no
logout for u after it: presence is mutated before the fallible storage steps
of register, so failed registrations also mark their user online. -/
theorem c9_presence_characterization :
    ∀ (tr : List Event) (u : UserId),
      u ∈ (run tr).online ↔ regIssuedNoLogout u tr false = true := by
  intro tr u
  exact online_characterization_aux tr initialState false u (by simp [initialState])

end MigChat
